import Mathlib

/-!
Verification development for the Sage guidance web app (sage_v2).

The JavaScript sources are shallowly embedded: pure computations become Lean
functions, stateful methods become explicit state passing, `async` results and
thrown exceptions become `Except` values, and the outcome of each network
attempt is an oracle parameter.  JavaScript strings are Lean `String`s;
`String.prototype.includes` becomes substring containment over `List Char`,
and `toLowerCase` becomes an ASCII lowering (the patterns the code tests are
all ASCII, so the embedding agrees with JS on every test the code performs).
All definitions are executable and all predicates decidable.
-/

namespace Sage

/-! ## String utilities (JS `includes`, `toLowerCase`, `trim`) -/

/-- Whether `needle` is a prefix of `hay` (over `List Char`). -/
def prefixAt : List Char → List Char → Bool
  | [], _ => true
  | _ :: _, [] => false
  | c :: cs, d :: ds => c == d && prefixAt cs ds

/-- Whether `needle` occurs as a contiguous sublist of `hay`. -/
def hasSub (needle : List Char) : List Char → Bool
  | [] => needle.isEmpty
  | d :: ds => prefixAt needle (d :: ds) || hasSub needle ds

/-- JS `s.includes(pat)`. -/
def strIncludes (s pat : String) : Bool :=
  hasSub pat.data s.data

/-- ASCII lowering of one character (JS `toLowerCase` restricted to ASCII;
every pattern the sources compare against is ASCII, or unaffected by case). -/
def lowerChar (c : Char) : Char :=
  if 'A' ≤ c ∧ c ≤ 'Z' then Char.ofNat (c.toNat + 32) else c

/-- JS `s.toLowerCase()` (ASCII letters). -/
def lowerStr (s : String) : String :=
  ⟨s.data.map lowerChar⟩

/-! ## JS errors

A thrown JavaScript `Error` is embedded as a name plus a message; `name` is
`"Error"` for a plain `new Error(...)`, and the constructor name for
`AbortError` / `TypeError` / the repo's own `ConnectionError`. -/

structure JsError where
  name : String
  message : String
deriving DecidableEq, Repr

/-! ## `api.js` — experience-based benefit content -/

structure BenefitGroup where
  title : String
  points : List String
deriving DecidableEq, Repr

def benefitsNew : List BenefitGroup :=
  [ { title := "Education First",
      points := ["Cannabis 101 basics & terminology",
                 "Dosing guidelines for beginners",
                 "Understanding effects timeline"] },
    { title := "Safety & Comfort",
      points := ["Start low and go slow approach",
                 "What to expect during first use",
                 "When and how to seek help"] },
    { title := "Guided Selection",
      points := ["Beginner-friendly product recommendations",
                 "Mild effects with clear labeling",
                 "Simple consumption methods"] } ]

def benefitsCasual : List BenefitGroup :=
  [ { title := "Quick Tips",
      points := ["Try vaping for faster onset control",
                 "Keep a cannabis journal for tracking",
                 "Explore different terpene profiles",
                 "Rotate strains to prevent tolerance"] },
    { title := "Before You Start",
      points := ["Check your tolerance level today",
                 "Consider your activity plans",
                 "Choose the right strain for the occasion",
                 "Set intentions for your session"] },
    { title := "Where to Buy",
      points := ["Green Valley Dispensary - 123 Main St",
                 "Mention your experience level for personalized help",
                 "Weekly deals on featured products",
                 "Join our loyalty program for exclusive discounts"] } ]

def benefitsExperienced : List BenefitGroup :=
  [ { title := "Advanced Insights",
      points := ["Terpene profiles and effects",
                 "Cannabinoid ratios optimization",
                 "Understanding entourage effects"] },
    { title := "Optimization",
      points := ["Tolerance management strategies",
                 "Microdosing techniques",
                 "Product stacking methods"] },
    { title := "Premium Selection",
      points := ["Craft and artisanal products",
                 "Limited edition offerings",
                 "Connoisseur recommendations"] } ]

/-- `SageAPI.getBenefitsForExperience`: `EXPERIENCE_BENEFITS[level] ||
EXPERIENCE_BENEFITS.casual`. -/
def getBenefitsForExperience (experienceLevel : String) : List BenefitGroup :=
  if experienceLevel = "new" then benefitsNew
  else if experienceLevel = "casual" then benefitsCasual
  else if experienceLevel = "experienced" then benefitsExperienced
  else benefitsCasual

/-! ## `api.js` — `SageAPI.callOllama`: the retrying client

Each attempt's network-level outcome is given by an oracle
`Nat → AttemptOutcome` (indexed by the 1-based attempt number): either the
`fetch` (or the body read) threw a `JsError`, or it produced a response with
an HTTP status and an optional `response` field of the decoded JSON. -/

structure FetchResp where
  ok : Bool
  status : Nat
  body : String
  responseField : Option String
deriving DecidableEq, Repr

inductive AttemptOutcome
  | thrown (e : JsError)
  | resp (r : FetchResp)
deriving DecidableEq, Repr

def missingFieldError : JsError :=
  ⟨"Error", "Invalid response format from Ollama - missing response field"⟩

/-- The error `callOllama` throws on `!response.ok`. -/
def httpStatusError (status : Nat) (body : String) : JsError :=
  ⟨"Error", "Ollama API error: " ++ toString status ++ " - " ++ body⟩

/-- One attempt's result: the `try` block of the retry loop
(`doFetchWithTimeout`, the `response.ok` check and the `data.response`
check), every failure thrown as a `JsError`.  JS `!data.response` also
rejects an empty string. -/
def attemptResult : AttemptOutcome → Except JsError String
  | .thrown e => .error e
  | .resp r =>
    if r.ok then
      match r.responseField with
      | none => .error missingFieldError
      | some s => if s = "" then .error missingFieldError else .ok s
    else .error (httpStatusError r.status r.body)

/-- `fetchError?.name === 'AbortError' || /timeout/i.test(fetchError?.message)`. -/
def isAbortError (e : JsError) : Bool :=
  e.name == "AbortError" || strIncludes (lowerStr e.message) "timeout"

/-- `fetchError?.name === 'TypeError' && /fetch|Failed to fetch/i.test(...)`
(the second regex alternative is subsumed by the first). -/
def isNetworkError (e : JsError) : Bool :=
  e.name == "TypeError" && strIncludes (lowerStr e.message) "fetch"

/-- The retry condition of the loop: `isAbort || isNetwork`. -/
def retryableError (e : JsError) : Bool :=
  isAbortError e || isNetworkError e

/-- `const attemptTimeouts = [60000, 120000, 240000]`. -/
def attemptTimeouts : List Nat := [60000, 120000, 240000]

def maxAttempts : Nat := attemptTimeouts.length

/-- The "map to friendly errors" block run on a non-retryable or final
error.  For an `AbortError` the message reports
`attemptTimeouts.slice(0, attempt)` summed, in seconds. -/
def mapFinalError (e : JsError) (attempt : Nat) : JsError :=
  if e.name = "AbortError" then
    ⟨"Error", "Ollama request timed out after "
      ++ toString ((attemptTimeouts.take attempt).sum / 1000) ++ "s"⟩
  else if e.name = "TypeError" then
    if strIncludes e.message "CORS" || strIncludes e.message "cross-origin" then
      ⟨"Error", "CORS error - browser blocking cross-origin request to Ollama server"⟩
    else if strIncludes e.message "fetch" || strIncludes e.message "Failed to fetch" then
      ⟨"Error", "Cannot connect to Ollama server - check if it is running or CORS is blocking the request"⟩
    else ⟨"Error", "Network error: " ++ e.message⟩
  else e

/-- What a run of `callOllama` did: its result, the attempt numbers executed,
the per-attempt timeout budget (ms) used, and the backoff waits (ms) taken
between attempts. -/
structure CallTrace where
  result : Except JsError String
  attempts : List Nat
  timeoutsUsed : List Nat
  backoffs : List Nat
deriving Repr

/-- The retry loop of `callOllama`, from attempt number `attempt` with the
per-attempt timeouts still to use and the `lastError` accumulator. -/
def callOllamaGo (oracle : Nat → AttemptOutcome) :
    Nat → List Nat → Option JsError → CallTrace
  | _, [], lastErr =>
    ⟨.error (lastErr.getD ⟨"Error", "Unknown error contacting Ollama"⟩), [], [], []⟩
  | attempt, t :: rest, _ =>
    match attemptResult (oracle attempt) with
    | .ok s => ⟨.ok s, [attempt], [t], []⟩
    | .error e =>
      if retryableError e ∧ attempt < maxAttempts then
        let r := callOllamaGo oracle (attempt + 1) rest (some e)
        ⟨r.result, attempt :: r.attempts, t :: r.timeoutsUsed, 1000 * attempt :: r.backoffs⟩
      else
        ⟨.error (mapFinalError e attempt), [attempt], [t], []⟩

/-- `SageAPI.callOllama` for a configured host (`OLLAMA_HOST`): throws
`'Ollama host not found'` on a falsy host, else runs the retry loop. -/
def callOllama (host : Option String) (oracle : Nat → AttemptOutcome) : CallTrace :=
  match host with
  | none => ⟨.error ⟨"Error", "Ollama host not found"⟩, [], [], []⟩
  | some h =>
    if h = "" then ⟨.error ⟨"Error", "Ollama host not found"⟩, [], [], []⟩
    else callOllamaGo oracle 1 attemptTimeouts none

/-! ## Products

The UI product schema produced by the recommendation pipeline
(`normalizeInventory` in the `SageAPI` variant with the inventory pipeline).
`rating` is kept in tenths (4.6 becomes 46) to stay in `Nat`. -/

structure Product where
  name : String
  type : String
  thc : String
  cbd : String
  price : String
  description : String
  availability : String
  strain : String
  effects : List String
  dispensaryUrl : String
  imageUrl : String
  ratingTenths : Nat
  whyThisWorks : String
deriving DecidableEq, Repr

/-! ## `gemini-mcp/js/data-service.js` — `SageDataService` -/

def isErr {ε α : Type} : Except ε α → Bool
  | .ok _ => false
  | .error _ => true

/-- The request context `processUserInput` builds. -/
structure RequestContext where
  userInput : String
  experienceLevel : String
  timestamp : Nat
  requestId : String
deriving DecidableEq, Repr

/-- The composite response object assembled by `executeParallelRequests` and
stored by `storeResponse`.  `hasPartialFailure` is a plain `Bool`: the JS
object leaves the key absent (falsy) until a sub-task fails. -/
structure ResponseData where
  userInput : String
  experienceLevel : String
  timestamp : Nat
  requestId : String
  host : Option String
  isDemo : Bool
  aiResponse : String
  benefits : List BenefitGroup
  products : List Product
  hasPartialFailure : Bool
deriving DecidableEq, Repr

/-- The values `getFallbackData` can return (`fallbacks[dataType] || null`). -/
inductive FallbackValue
  | str (s : String)
  | benefits (b : List BenefitGroup)
  | products (ps : List Product)
  | null
deriving DecidableEq, Repr

def fallbackAiText : String :=
  "We're experiencing high demand. Your request is being processed with our backup systems."

/-- `SageDataService.getFallbackData`. -/
def getFallbackData (dataType experienceLevel : String) : FallbackValue :=
  if dataType = "aiResponse" then .str fallbackAiText
  else if dataType = "benefits" then .benefits (getBenefitsForExperience experienceLevel)
  else if dataType = "products" then .products []
  else .null

def fallbackNonNull : FallbackValue → Bool
  | .null => false
  | _ => true

def fallbackNonEmpty : FallbackValue → Bool
  | .str s => !(s == "")
  | .benefits b => !b.isEmpty
  | .products ps => !ps.isEmpty
  | .null => false

/-- `SageDataService.executeParallelRequests`: the three sub-calls are issued
together and awaited with `Promise.allSettled`, so all three settle and each
is merged independently — a settled result per sub-task is this function's
input.  A fulfilled result's value is copied unchanged; a rejected one is
replaced by `getFallbackData(key, experienceLevel)` and flips
`hasPartialFailure`. -/
def executeParallelRequests (ctx : RequestContext) (host : Option String)
    (aiResult : Except JsError String)
    (benefitsResult : Except JsError (List BenefitGroup))
    (productsResult : Except JsError (List Product)) : ResponseData :=
  { userInput := ctx.userInput
    experienceLevel := ctx.experienceLevel
    timestamp := ctx.timestamp
    requestId := ctx.requestId
    host := host
    isDemo := false
    aiResponse := match aiResult with
      | .ok v => v
      | .error _ => fallbackAiText
    benefits := match benefitsResult with
      | .ok v => v
      | .error _ => getBenefitsForExperience ctx.experienceLevel
    products := match productsResult with
      | .ok v => v
      | .error _ => []
    hasPartialFailure := isErr aiResult || isErr benefitsResult || isErr productsResult }

/-! ### Connection management -/

/-- `this.connectionState`. -/
structure ConnState where
  isConnected : Bool
  lastChecked : Option Nat
  currentHost : Option String
deriving DecidableEq, Repr

def initialConnState : ConnState :=
  { isConnected := false, lastChecked := none, currentHost := none }

/-- The environment `validateConnection` probes: what
`window.Config.testConnection()` and `window.Config.autoDiscoverHost()`
settle to.  `.ok (some h)` is a `{success: true, host: h}` result, `.ok none`
a `{success: false}` result, `.error e` a rejection. -/
structure ConnProbe where
  test : Except JsError (Option String)
  discover : Except JsError (Option String)
deriving Repr

def connectionUnableError : JsError :=
  ⟨"ConnectionError", "Unable to establish connection to Ollama server"⟩

def noValidConnectionError : JsError :=
  ⟨"ConnectionError", "No valid connection available"⟩

/-- `SageDataService.validateConnection`: (state after the call, the error it
throws if any).  The `catch` sets `isConnected = false` and rethrows. -/
def validateConnection (probe : ConnProbe) (now : Nat) (st : ConnState) :
    ConnState × Option JsError :=
  match probe.test with
  | .ok (some h) =>
    ({ isConnected := true, lastChecked := some now, currentHost := some h }, none)
  | .ok none =>
    match probe.discover with
    | .ok (some h) =>
      ({ isConnected := true, lastChecked := some now, currentHost := some h }, none)
    | .ok none => ({ st with isConnected := false }, some connectionUnableError)
    | .error e => ({ st with isConnected := false }, some e)
  | .error e => ({ st with isConnected := false }, some e)

/-- `SageDataService.ensureConnection`.  A `lastChecked` of `none` models the
falsy (`null`) initial value. -/
def ensureConnection (probe : ConnProbe) (now : Nat) (st : ConnState) :
    ConnState × Option JsError :=
  let needsCheck : Bool :=
    !st.isConnected ||
      (match st.lastChecked with
       | none => true
       | some last => decide (now - last > 60000))
  let (st1, thrown) :=
    if needsCheck then validateConnection probe now st else (st, none)
  match thrown with
  | some e => (st1, some e)
  | none =>
    if st1.isConnected then (st1, none) else (st1, some noValidConnectionError)

/-! ### The orchestrator, `processUserInput` -/

/-- What `processUserInput` resolves to.  `demo` stands for
`getDemoResponse`'s payload (whose static contents no claim concerns);
`failure` is `handleError`'s structured `{success: false, ...}` object. -/
inductive PUIResult
  | success (data : ResponseData)
  | demo (experienceLevel : String) (host : Option String)
  | failure (error : String) (message : String) (fallbackAvailable : Bool)
      (userInput : String) (experienceLevel : String)
deriving DecidableEq, Repr

/-- `SageDataService.handleError`: classifies a caught error and returns a
structured failure result — nothing is rethrown. -/
def handleError (e : JsError) (userInput experienceLevel : String) : PUIResult :=
  if e.name = "ConnectionError" ∨ strIncludes e.message "connection" then
    .failure "connection" "Unable to connect to AI service. Please check your connection."
      true userInput experienceLevel
  else if strIncludes e.message "timeout" then
    .failure "timeout" "Request took too long. Please try again." true userInput experienceLevel
  else
    .failure "generic" "Something went wrong. Please try again." false userInput experienceLevel

/-- The environment one `processUserInput` call runs in: the connection
probes and what each of the three parallel sub-calls settles to (a rejection
covers both a thrown API error and `safeAPICall`'s 30 s timeout). -/
structure PUIEnv where
  probe : ConnProbe
  now : Nat
  requestId : String
  aiResult : Except JsError String
  benefitsResult : Except JsError (List BenefitGroup)
  productsResult : Except JsError (List Product)

/-- `SageDataService.processUserInput`: cancel pending work, ensure the
connection, handle demo mode, run the parallel requests, store and return —
with every thrown error caught and converted by `handleError`, so the
function is total (`handle` itself never throws).  Returns the result and
the connection state after the call. -/
def processUserInput (env : PUIEnv) (userInput experienceLevel : String)
    (st : ConnState) : PUIResult × ConnState :=
  let (st1, thrown) := ensureConnection env.probe env.now st
  match thrown with
  | some e => (handleError e userInput experienceLevel, st1)
  | none =>
    if lowerStr userInput = "demo" then
      (.demo experienceLevel st1.currentHost, st1)
    else
      let ctx : RequestContext :=
        { userInput := userInput.trim, experienceLevel := experienceLevel,
          timestamp := env.now, requestId := env.requestId }
      let data := executeParallelRequests ctx st1.currentHost
        env.aiResult env.benefitsResult env.productsResult
      (.success data, st1)

/-! ### Session cache (`getCachedResponse`, `storeResponse`, `clearCache`) -/

/-- The three fallback fingerprints `isFallbackData` tests. -/
def fallbackPatterns : List String :=
  [ "Your question requires personalized cannabis guidance",
    "Your cannabis query needs our full recommendation engine",
    "Your advanced cannabis query requires our comprehensive analysis system" ]

/-- `SageDataService.isFallbackData` on a stored `ResponseData`: a falsy
(empty) `aiResponse` is not fallback data; otherwise the entry is fallback
exactly when some fingerprint occurs, the text is shorter than 500
characters and the `[INTRODUCTION]` structural marker is absent. -/
def isFallbackData (d : ResponseData) : Bool :=
  if d.aiResponse = "" then false
  else fallbackPatterns.any fun pat =>
    strIncludes d.aiResponse pat && decide (d.aiResponse.length < 500)
      && !(strIncludes d.aiResponse "[INTRODUCTION]")

/-- The host-consistency test of `getCachedResponse`:
`data.host && data.host !== this.connectionState.currentHost`. -/
def hostMismatch (d : ResponseData) (currentHost : Option String) : Bool :=
  match d.host with
  | none => false
  | some h => !(h == "") && !(some h == currentHost)

/-- `SageDataService.getCachedResponse` over the sessionStorage cell: returns
(the entry handed back, the cell after the call).  Every rejection path calls
`clearCache()`, so the cell is emptied, not merely skipped. -/
def getCachedResponse (stored : Option ResponseData) (now : Nat)
    (currentHost : Option String) : Option ResponseData × Option ResponseData :=
  match stored with
  | none => (none, none)
  | some d =>
    if now - d.timestamp > 30 * 60 * 1000 then (none, none)
    else if hostMismatch d currentHost then (none, none)
    else if isFallbackData d then (none, none)
    else (some d, some d)

/-! ### Cancellation (`cancelPendingRequests`, `safeAPICall`, `storeResponse`)

`processUserInput` aborts the previous call's `AbortController`, but the
`signal` is passed no further: `safeAPICall` receives it and never reads it,
and the post-await continuation of `processUserInput` stores its result with
no abort check.  The two definitions below embed exactly that. -/

structure AbortSignal where
  aborted : Bool
deriving DecidableEq, Repr

/-- `SageDataService.safeAPICall(apiCall, context, signal)`: races `apiCall()`
against a 30 s timeout; the `signal` parameter is unused, exactly as in the
source. -/
def safeAPICall {α : Type} (apiCall : Unit → Except JsError α)
    (_signal : AbortSignal) : Except JsError α :=
  apiCall ()

/-- A write to the `sessionStorage` cell (`storeResponse`). -/
inductive SessionEvent
  | storeWrite (data : ResponseData)
deriving DecidableEq, Repr

def applyEvent (_cell : Option ResponseData) : SessionEvent → Option ResponseData
  | .storeWrite d => some d

/-- The cache cell after a sequence of completions ran against it. -/
def runEvents (cell : Option ResponseData) (events : List SessionEvent) :
    Option ResponseData :=
  events.foldl applyEvent cell

/-- The continuation of `processUserInput` after its awaited results settle
(source: `this.storeResponse(responseData)` right after the `await`): it
writes unconditionally; the aborted flag of a superseded request is not
consulted anywhere on this path. -/
def completionEvents (_aborted : Bool) (data : ResponseData) : List SessionEvent :=
  [.storeWrite data]

/-! ## The product search pipeline (`SageAPI` inventory variant)

`buildProductSearchSpec` → `normalizeInventory` → `passesLegalFilter` →
`rankProducts`, as in the source file carrying the pluggable inventory
pipeline. -/

structure TargetRange where
  min : Nat
  max : Nat
deriving DecidableEq, Repr

/-- `delta9MaxPercent: 0.3` is kept in permille (3) to stay in `Nat`. -/
structure LegalSpec where
  hempDerivedOnly : Bool
  delta9MaxPermille : Nat
  categoriesAllowed : List String := []
deriving DecidableEq, Repr

structure ProductSearchSpec where
  query : String
  experienceLevel : String
  legal : Option LegalSpec
  desiredEffects : List String
  productTypes : List String
  strainPreference : String
  targetTHCaPercent : TargetRange
  avoid : List String
  priceBand : String
deriving DecidableEq, Repr

/-- The `baseSpec` of `buildProductSearchSpec` after its heuristic
enrichment from the lowercased query.  Order matters: the sativa keywords
(`focus`/`day`/`energy`) are tested after the indica ones
(`sleep`/`anxiety`/`relax`) and overwrite their choice. -/
def baseSearchSpec (userInput experienceLevel : String) : ProductSearchSpec :=
  let q := lowerStr userInput
  let base : ProductSearchSpec :=
    { query := userInput
      experienceLevel := experienceLevel
      legal := some { hempDerivedOnly := true, delta9MaxPermille := 3,
                      categoriesAllowed := ["THCa Flower",
                        "Hemp-derived Delta-8/Delta-9 where compliant"] }
      desiredEffects := []
      productTypes := ["flower"]
      strainPreference := "hybrid"
      targetTHCaPercent := ⟨18, 28⟩
      avoid := []
      priceBand := "mid" }
  let s1 :=
    if strIncludes q "sleep" || strIncludes q "anxiety" || strIncludes q "relax" then
      { base with strainPreference := "indica" } else base
  let s2 :=
    if strIncludes q "focus" || strIncludes q "day" || strIncludes q "energy" then
      { s1 with strainPreference := "sativa" } else s1
  let s3 :=
    if strIncludes q "budget" || strIncludes q "cheap" then
      { s2 with priceBand := "value" } else s2
  if strIncludes q "strong" || strIncludes q "potent" then
    { s3 with targetTHCaPercent := ⟨22, 30⟩ } else s3

/-- The fields the optional local-model JSON reply may contribute (the
`{...baseSpec, ...parsed, legal: {...}}` merge). -/
structure ParsedFields where
  query : Option String := none
  experienceLevel : Option String := none
  desiredEffects : Option (List String) := none
  productTypes : Option (List String) := none
  strainPreference : Option String := none
  targetTHCaPercent : Option TargetRange := none
  avoid : Option (List String) := none
  priceBand : Option String := none
deriving Repr

/-- `SageAPI.buildProductSearchSpec`.  `modelReply = none` is the heuristic
path (no Ollama connection, unparseable reply, or a thrown call — the
`catch`/guard paths all return `baseSpec`); `some f` is a parsed JSON reply,
spread over the base spec with the legal block pinned. -/
def buildProductSearchSpec (userInput experienceLevel : String)
    (modelReply : Option ParsedFields) : ProductSearchSpec :=
  let base := baseSearchSpec userInput experienceLevel
  match modelReply with
  | none => base
  | some f =>
    { query := f.query.getD base.query
      experienceLevel := f.experienceLevel.getD base.experienceLevel
      legal := some { hempDerivedOnly := true, delta9MaxPermille := 3 }
      desiredEffects := f.desiredEffects.getD base.desiredEffects
      productTypes := f.productTypes.getD base.productTypes
      strainPreference := f.strainPreference.getD base.strainPreference
      targetTHCaPercent := f.targetTHCaPercent.getD base.targetTHCaPercent
      avoid := f.avoid.getD base.avoid
      priceBand := f.priceBand.getD base.priceBand }

/-! ### Inventory normalization -/

/-- JS truthiness for an optional string: `none` and `""` are falsy. -/
def truthyS : Option String → Option String
  | some s => if s = "" then none else some s
  | none => none

/-- A raw inventory item.  The three raw THCa keys
(`thcaPercent || thcPercent || thca`) and `toPercent` are pre-rendered here
into one optional text (`"22%"` for the number 22); nothing downstream
inspects more than its truthiness and its characters. -/
structure RawItem where
  strain : Option String := none
  category : Option String := none
  type : Option String := none
  thcaText : Option String := none
  price : Option String := none
  priceText : Option String := none
  priceCents : Option Nat := none
  name : Option String := none
  title : Option String := none
  url : Option String := none
  productUrl : Option String := none
  dispensaryUrl : Option String := none
  image : Option String := none
  imageUrl : Option String := none
  description : Option String := none
  availability : Option String := none
  effects : Option (List String) := none
  ratingTenths : Option Nat := none
deriving Repr

def legalNote : String := "Δ9 ≤0.3% (hemp)"

/-- `pickEffects` of `normalizeInventory`. -/
def pickEffects (s : String) : List String :=
  let t := lowerStr s
  if strIncludes t "indica" then ["Relaxing", "Calm", "Sleep"]
  else if strIncludes t "sativa" then ["Energetic", "Uplifting", "Focus"]
  else ["Balanced", "Relaxed", "Uplifted"]

/-- `` `$${(it.priceCents/100).toFixed(2)}` ``. -/
def priceCentsText (c : Nat) : String :=
  "$" ++ toString (c / 100) ++ "." ++
    (if c % 100 < 10 then "0" ++ toString (c % 100) else toString (c % 100))

/-- `SageAPI.createWhyThisWorks`. -/
def createWhyThisWorks (product : Product) (spec : Option ProductSearchSpec)
    (ctxLevel : Option String) : String :=
  let level := (truthyS ctxLevel <|> truthyS (spec.map (·.experienceLevel))).getD "casual"
  let base := "Hemp‑derived, Farm Bill–compliant THCa flower"
  let track :=
    if level = "new" then "gentle, predictable effects without exceeding legal Δ9 limits"
    else if level = "experienced" then "potency headroom from THCa while remaining compliant"
    else "balanced effects within compliant thresholds"
  let strainNote :=
    if strIncludes (lowerStr product.strain) "indica" then "helps with evening relaxation"
    else if strIncludes (lowerStr product.strain) "sativa" then "supports daytime focus and mood"
    else "offers versatile, anytime use"
  base ++ " — " ++ track ++ ". " ++ strainNote ++ "."

/-- One item of `normalizeInventory`'s `map`: the normalized UI product. -/
def normalizeItem (spec : Option ProductSearchSpec) (ctxLevel : Option String)
    (it : RawItem) : Product :=
  let strain := (truthyS it.strain <|> truthyS it.category <|> truthyS it.type).getD "Hybrid"
  let thcaPct := truthyS it.thcaText
  let price :=
    (truthyS it.price <|> truthyS it.priceText).getD
      (match it.priceCents with
       | some c => if c = 0 then "$--" else priceCentsText c
       | none => "$--")
  let name := (truthyS it.name <|> truthyS it.title).getD "THCa Hemp Flower"
  let url := (truthyS it.url <|> truthyS it.productUrl <|> truthyS it.dispensaryUrl).getD "#"
  let img := (truthyS it.image <|> truthyS it.imageUrl).getD ""
  let product : Product :=
    { name := name
      type := "THCa Flower"
      thc := match thcaPct with
        | some t => "THCa " ++ t
        | none => "THCa --"
      cbd := legalNote
      price := price
      description := (truthyS it.description).getD "Farm Bill compliant THCa hemp flower"
      availability := (truthyS it.availability).getD "In Stock"
      strain := strain
      effects := it.effects.getD (pickEffects strain)
      dispensaryUrl := url
      imageUrl := img
      ratingTenths := it.ratingTenths.getD 46
      whyThisWorks := "" }
  { product with whyThisWorks := createWhyThisWorks product spec ctxLevel }

/-- The text signal `passesLegalFilter` looks for in
`name + ' ' + description + ' ' + cbd`, lowercased. -/
def hempSignal (p : Product) : Bool :=
  let text := lowerStr (p.name ++ " " ++ p.description ++ " " ++ p.cbd)
  strIncludes text "hemp" || strIncludes text "farm bill" || strIncludes text "≤0.3"

/-- `product.thc.toLowerCase().includes('thca')`. -/
def thcaTagged (p : Product) : Bool :=
  strIncludes (lowerStr p.thc) "thca"

/-- `SageAPI.passesLegalFilter`. -/
def passesLegalFilter (p : Product) (spec : Option ProductSearchSpec) : Bool :=
  match spec with
  | none => true
  | some s =>
    match s.legal with
    | none => true
    | some lg =>
      if lg.hempDerivedOnly then
        if !(hempSignal p) then thcaTagged p else true
      else true

/-- `SageAPI.normalizeInventory`: map to the UI schema, then keep only the
products that pass the legal filter. -/
def normalizeInventory (items : List RawItem) (spec : Option ProductSearchSpec)
    (ctxLevel : Option String) : List Product :=
  (items.map (normalizeItem spec ctxLevel)).filter fun p => passesLegalFilter p spec

/-! ### Ranking -/

/-- The lowercased blob `rankProducts` scores:
`name + ' ' + strain + ' ' + description`. -/
def nameBlob (p : Product) : String :=
  lowerStr (p.name ++ " " ++ p.strain ++ " " ++ p.description)

/-- `(spec?.strainPreference || 'hybrid').toLowerCase()`. -/
def prefOf (spec : Option ProductSearchSpec) : String :=
  lowerStr (match spec with
    | none => "hybrid"
    | some s => if s.strainPreference = "" then "hybrid" else s.strainPreference)

/-- `spec?.priceBand` as compared against `'value'` / `'premium'` (absent
becomes `""`, which matches neither). -/
def priceBandOf (spec : Option ProductSearchSpec) : String :=
  match spec with
  | none => ""
  | some s => s.priceBand

/-- The regex `/\$1\d|\$2\d/` over the price text. -/
def priceValueScan : List Char → Bool
  | '$' :: c :: d :: rest =>
    ((c == '1' || c == '2') && d.isDigit) || priceValueScan (c :: d :: rest)
  | _ :: rest => priceValueScan rest
  | [] => false

/-- The regex `/\$[5-9]\d|\$\d{3}/` over the price text. -/
def pricePremiumScan : List Char → Bool
  | '$' :: c :: d :: rest =>
    (('5' ≤ c ∧ c ≤ '9') && d.isDigit) ||
      (c.isDigit && d.isDigit && (match rest with
        | e :: _ => e.isDigit
        | [] => false)) ||
      pricePremiumScan (c :: d :: rest)
  | _ :: rest => pricePremiumScan rest
  | [] => false

/-- The strain-preference component of a product's rank score. -/
def strainScore (pref n : String) : Nat :=
  (if pref = "indica" ∧ strIncludes n "indica" = true then 3 else 0)
  + (if pref = "sativa" ∧ strIncludes n "sativa" = true then 3 else 0)
  + (if pref = "hybrid" ∧ strIncludes n "hybrid" = true then 2 else 0)

/-- The non-strain components of a product's rank score (THCa and hemp
mentions, price-band match). -/
def otherScore (spec : Option ProductSearchSpec) (p : Product) : Nat :=
  let n := nameBlob p
  (if strIncludes n "thca" = true then 2 else 0)
  + (if strIncludes n "hemp" = true then 2 else 0)
  + (if priceBandOf spec = "value" ∧ priceValueScan p.price.data = true then 1 else 0)
  + (if priceBandOf spec = "premium" ∧ pricePremiumScan p.price.data = true then 1 else 0)

/-- The integer score `rankProducts` assigns one product. -/
def scoreProduct (spec : Option ProductSearchSpec) (p : Product) : Nat :=
  strainScore (prefOf spec) (nameBlob p) + otherScore spec p

/-- `SageAPI.rankProducts`: a stable sort by descending score
(`sort((a, b) => b.score - a.score)`; JS `Array.prototype.sort` is stable,
as is `List.insertionSort` here). -/
def rankProducts (products : List Product) (spec : Option ProductSearchSpec) :
    List Product :=
  List.insertionSort (fun a b => scoreProduct spec b ≤ scoreProduct spec a) products

/-- The last-resort mock fallback of `getProductRecommendations` (fields the
mock objects do not carry are empty here). -/
def mockFallbackProducts : List Product :=
  [ { name := "THCa Hemp Flower — Hybrid"
      type := "THCa Flower"
      thc := "THCa ~22%"
      cbd := "Δ9 ≤0.3% (hemp)"
      price := "$29"
      description := "Farm Bill compliant THCa flower, balanced daytime use"
      availability := "In Stock"
      strain := "Hybrid"
      effects := ["Balanced", "Relaxed", "Uplifted"]
      dispensaryUrl := "#"
      imageUrl := ""
      ratingTenths := 0
      whyThisWorks := "" },
    { name := "THCa Hemp Flower — Indica"
      type := "THCa Flower"
      thc := "THCa ~25%"
      cbd := "Δ9 ≤0.3% (hemp)"
      price := "$32"
      description := "Compliant THCa indica option for evening relaxation"
      availability := "In Stock"
      strain := "Indica"
      effects := ["Relaxing", "Sleep", "Calm"]
      dispensaryUrl := "#"
      imageUrl := ""
      ratingTenths := 0
      whyThisWorks := "" } ]

/-- `SageAPI.getProductRecommendations` (pipeline variant), given the items
the configured inventory source yielded (`[]` when the fetch failed or the
source was empty): normalize → rank → top 4, or the mock fallback. -/
def getProductRecommendations (items : List RawItem)
    (spec : Option ProductSearchSpec) (ctxLevel : Option String) : List Product :=
  match items with
  | [] => mockFallbackProducts
  | _ :: _ =>
    (rankProducts (normalizeInventory items spec ctxLevel) spec).take 4

/-! ## Concrete data used by counterexamples and witnesses -/

/-- An environment in which both connection probes report failure while
every sub-call would have succeeded, including generation. -/
def connFailEnv : PUIEnv :=
  { probe := { test := .ok none, discover := .ok none }
    now := 0
    requestId := "req_1"
    aiResult := .ok "[INTRODUCTION] A real generated answer."
    benefitsResult := .ok benefitsCasual
    productsResult := .ok [] }

/-- A cached entry recorded with no host field. -/
def noHostEntry : ResponseData :=
  { userInput := "q", experienceLevel := "casual", timestamp := 0,
    requestId := "r1", host := none, isDemo := false,
    aiResponse := "Indica strains help with sleep.",
    benefits := [], products := [], hasPartialFailure := false }

/-- The superseded first request's late result. -/
def staleData : ResponseData :=
  { userInput := "first question", experienceLevel := "casual", timestamp := 10,
    requestId := "req_1", host := some "http://localhost:11434", isDemo := false,
    aiResponse := "STALE FIRST RESULT", benefits := [], products := [],
    hasPartialFailure := false }

/-- The second (newer) request's result. -/
def freshData : ResponseData :=
  { userInput := "second question", experienceLevel := "casual", timestamp := 20,
    requestId := "req_2", host := some "http://localhost:11434", isDemo := false,
    aiResponse := "FRESH SECOND RESULT", benefits := [], products := [],
    hasPartialFailure := false }

/-! ## Helper lemmas -/

/-- Definitional step of the retry loop on a non-empty timeout list. -/
theorem callOllamaGo_cons (oracle : Nat → AttemptOutcome) (attempt t : Nat)
    (rest : List Nat) (lastE : Option JsError) :
    callOllamaGo oracle attempt (t :: rest) lastE =
      match attemptResult (oracle attempt) with
      | .ok s => ⟨.ok s, [attempt], [t], []⟩
      | .error e =>
        if retryableError e ∧ attempt < maxAttempts then
          let r := callOllamaGo oracle (attempt + 1) rest (some e)
          ⟨r.result, attempt :: r.attempts, t :: r.timeoutsUsed, 1000 * attempt :: r.backoffs⟩
        else ⟨.error (mapFinalError e attempt), [attempt], [t], []⟩ := rfl

/-- On a non-empty host, `callOllama` is the retry loop from attempt 1. -/
theorem callOllama_some (host : String) (hhost : host ≠ "")
    (oracle : Nat → AttemptOutcome) :
    callOllama (some host) oracle = callOllamaGo oracle 1 attemptTimeouts none := by
  unfold callOllama
  dsimp only
  rw [if_neg hhost]

/-! ## Theorems for the claims -/

/-- C3: when every attempt against the backend times out (aborts), the
retrying client makes exactly 3 attempts, with the strictly increasing
per-attempt timeout schedule 60 s / 120 s / 240 s, takes the linear backoffs
1 s and 2 s between them, and the final error reports the cumulative 420 s —
the sum of the three attempt timeouts. -/
theorem callOllama_allTimeouts (oracle : Nat → AttemptOutcome) (host msg : String)
    (hhost : host ≠ "")
    (htimeout : ∀ n, oracle n = .thrown ⟨"AbortError", msg⟩) :
    callOllama (some host) oracle =
      ⟨.error ⟨"Error", "Ollama request timed out after 420s"⟩, [1, 2, 3],
        [60000, 120000, 240000], [1000, 2000]⟩ := by
  have hfun : oracle = fun _ => AttemptOutcome.thrown ⟨"AbortError", msg⟩ :=
    funext htimeout
  subst hfun
  rw [callOllama_some _ hhost]
  rfl

/-- C3 witness: the schedule at a concrete always-aborting backend. -/
theorem callOllama_allTimeouts_witness :
    callOllama (some "http://localhost:11434")
      (fun _ => .thrown ⟨"AbortError", "The user aborted a request."⟩) =
      ⟨.error ⟨"Error", "Ollama request timed out after 420s"⟩, [1, 2, 3],
        [60000, 120000, 240000], [1000, 2000]⟩ :=
  callOllama_allTimeouts _ _ "The user aborted a request." (by decide) (fun _ => rfl)

/-- C4 counterexample: the claim says a bad HTTP status fails immediately
with no retry, but the loop's `/timeout/i` test runs over the composed error
message, which embeds the HTTP body — so an HTTP 504 whose body is
`"Gateway Timeout"` is retried (attempt 2 then succeeds), contradicting the
claim at this input. -/
theorem callOllama_httpErrorRetried_cex :
    callOllama (some "http://localhost:11434")
      (fun n => if n = 1 then .resp ⟨false, 504, "Gateway Timeout", none⟩
                else .resp ⟨true, 200, "", some "OK"⟩) =
      ⟨.ok "OK", [1, 2], [60000, 120000], [1000]⟩ := by rfl

/-- C4 (amended): a further attempt happens only when the failed attempt's
error is retryable — an abort, any error whose message matches `/timeout/i`
(which includes an HTTP-status error whose body mentions a timeout), or a
transport `TypeError` matching `/fetch/i` — and then after a linear backoff
of `attemptNumber × 1 s`; every other error (bad HTTP status without
timeout wording, missing `response` field) fails immediately on attempt 1. -/
theorem callOllama_retryPolicy (oracle : Nat → AttemptOutcome) (host : String)
    (hhost : host ≠ "") (e : JsError)
    (h1 : attemptResult (oracle 1) = .error e) :
    (retryableError e = false →
      callOllama (some host) oracle = ⟨.error (mapFinalError e 1), [1], [60000], []⟩) ∧
    (retryableError e = true →
      (callOllama (some host) oracle).attempts =
        1 :: (callOllamaGo oracle 2 [120000, 240000] (some e)).attempts ∧
      (callOllama (some host) oracle).backoffs =
        1000 :: (callOllamaGo oracle 2 [120000, 240000] (some e)).backoffs) ∧
    (∀ status body,
      strIncludes (lowerStr (httpStatusError status body).message) "timeout" = false →
      retryableError (httpStatusError status body) = false) ∧
    retryableError missingFieldError = false ∧
    (∀ m, retryableError ⟨"AbortError", m⟩ = true) ∧
    retryableError ⟨"TypeError", "Failed to fetch"⟩ = true := by
  refine ⟨?_, ?_, ?_, by decide, fun m => rfl, by decide⟩
  · intro hr
    rw [callOllama_some _ hhost]
    show callOllamaGo oracle 1 (60000 :: [120000, 240000]) none = _
    rw [callOllamaGo_cons, h1]
    simp [hr]
  · intro hr
    rw [callOllama_some _ hhost]
    show (callOllamaGo oracle 1 (60000 :: [120000, 240000]) none).attempts = _ ∧
      (callOllamaGo oracle 1 (60000 :: [120000, 240000]) none).backoffs = _
    rw [callOllamaGo_cons, h1]
    simp [hr, maxAttempts, attemptTimeouts]
  · intro status body hb
    simp [retryableError, isAbortError, isNetworkError, httpStatusError] at hb ⊢
    exact hb

/-- C4 witness: a missing `response` field fails immediately, one attempt,
no backoff. -/
theorem callOllama_retryPolicy_witness :
    callOllama (some "http://localhost:11434")
      (fun _ => .resp ⟨true, 200, "{}", none⟩) =
      ⟨.error missingFieldError, [1], [60000], []⟩ :=
  ((callOllama_retryPolicy (fun _ => .resp ⟨true, 200, "{}", none⟩)
      "http://localhost:11434" (by decide) missingFieldError rfl).1) (by decide)

/-- C9 counterexample: the fallback substituted for a failed products
sub-task is the empty list — non-null but empty, refuting "non-null and
non-empty" over every sub-task key. -/
theorem getFallbackData_products_empty_cex :
    getFallbackData "products" "new" = .products [] ∧
    fallbackNonEmpty (getFallbackData "products" "new") = false := by decide

/-- C9 (amended): for every experience level (known or not) the `aiResponse`
and `benefits` fallbacks are non-null and non-empty, and the default
benefits lookup is non-empty; the `products` fallback is non-null but the
empty list, and an unknown sub-task key yields null. -/
theorem getFallbackData_amended (experienceLevel : String) :
    (fallbackNonNull (getFallbackData "aiResponse" experienceLevel) = true ∧
      fallbackNonEmpty (getFallbackData "aiResponse" experienceLevel) = true) ∧
    (fallbackNonNull (getFallbackData "benefits" experienceLevel) = true ∧
      fallbackNonEmpty (getFallbackData "benefits" experienceLevel) = true) ∧
    getFallbackData "products" experienceLevel = .products [] ∧
    getBenefitsForExperience experienceLevel ≠ [] ∧
    getFallbackData "accessibility" experienceLevel = .null := by
  have hb : getBenefitsForExperience experienceLevel = benefitsNew ∨
      getBenefitsForExperience experienceLevel = benefitsCasual ∨
      getBenefitsForExperience experienceLevel = benefitsExperienced := by
    unfold getBenefitsForExperience
    split_ifs <;> simp
  refine ⟨⟨rfl, rfl⟩, ⟨rfl, ?_⟩, rfl, ?_, rfl⟩
  · rcases hb with h | h | h <;>
      simp [getFallbackData, h, fallbackNonEmpty, benefitsNew, benefitsCasual,
        benefitsExperienced]
  · rcases hb with h | h | h <;> rw [h] <;> decide

/-- C2: the fan-out merge of `executeParallelRequests` over three settled
results (`Promise.allSettled` waits for all three, so each is merged
independently): every fulfilled sub-task's value appears unchanged, every
rejected sub-task's field is the documented `getFallbackData` value,
`hasPartialFailure` is set exactly when some sub-task failed, and no
sub-task's outcome can discard another's successful value. -/
theorem executeParallelRequests_merge (ctx : RequestContext) (host : Option String)
    (r1 : Except JsError String) (r2 : Except JsError (List BenefitGroup))
    (r3 : Except JsError (List Product)) :
    ((∀ v, r1 = .ok v → (executeParallelRequests ctx host r1 r2 r3).aiResponse = v) ∧
     (∀ e, r1 = .error e →
       FallbackValue.str (executeParallelRequests ctx host r1 r2 r3).aiResponse =
         getFallbackData "aiResponse" ctx.experienceLevel)) ∧
    ((∀ v, r2 = .ok v → (executeParallelRequests ctx host r1 r2 r3).benefits = v) ∧
     (∀ e, r2 = .error e →
       FallbackValue.benefits (executeParallelRequests ctx host r1 r2 r3).benefits =
         getFallbackData "benefits" ctx.experienceLevel)) ∧
    ((∀ v, r3 = .ok v → (executeParallelRequests ctx host r1 r2 r3).products = v) ∧
     (∀ e, r3 = .error e →
       FallbackValue.products (executeParallelRequests ctx host r1 r2 r3).products =
         getFallbackData "products" ctx.experienceLevel)) ∧
    ((executeParallelRequests ctx host r1 r2 r3).hasPartialFailure =
      (isErr r1 || isErr r2 || isErr r3)) ∧
    (∀ r1' r2', (executeParallelRequests ctx host r1' r2' r3).products =
      (executeParallelRequests ctx host r1 r2 r3).products) ∧
    (∀ r1' r3', (executeParallelRequests ctx host r1' r2 r3').benefits =
      (executeParallelRequests ctx host r1 r2 r3).benefits) ∧
    (∀ r2' r3', (executeParallelRequests ctx host r1 r2' r3').aiResponse =
      (executeParallelRequests ctx host r1 r2 r3).aiResponse) := by
  refine ⟨⟨?_, ?_⟩, ⟨?_, ?_⟩, ⟨?_, ?_⟩, rfl, ?_, ?_, ?_⟩ <;>
    intro a b <;> first | rfl | (subst b; rfl)

/-- C1 counterexample: with connectivity validation failing
(`testConnection` and `autoDiscoverHost` both unsuccessful) the orchestrator
does not attempt generation and does not return a degraded-but-successful
response with `partialFailure = true`: it returns the bare structured error
result `{success: false, error: 'connection', ...}` — even though the
generation sub-call in this environment would have succeeded. -/
theorem processUserInput_connFailure_cex :
    (processUserInput connFailEnv "I need help sleeping" "casual" initialConnState).1 =
      PUIResult.failure "connection"
        "Unable to connect to AI service. Please check your connection." true
        "I need help sleeping" "casual" := by decide

/-- C1 (amended): when `ensureConnection` fails (both probes report no
usable endpoint), `processUserInput` catches the `ConnectionError` at the
orchestrator boundary and — instead of attempting generation — returns the
structured failure result `error='connection'`, `fallbackAvailable=true`;
the result is independent of what the generation oracle would have
returned, and `handle` itself never throws (the embedding is total, every
caught error flowing through `handleError`). -/
theorem processUserInput_connFailure (env : PUIEnv)
    (userInput experienceLevel : String) (st : ConnState)
    (htest : env.probe.test = .ok none)
    (hdisc : env.probe.discover = .ok none)
    (hst : st.isConnected = false) :
    (processUserInput env userInput experienceLevel st).1 =
      PUIResult.failure "connection"
        "Unable to connect to AI service. Please check your connection." true
        userInput experienceLevel := by
  unfold processUserInput ensureConnection validateConnection
  rw [htest, hdisc, hst]
  simp [handleError, connectionUnableError]

/-- C1 witness: the amended behaviour at a concrete environment. -/
theorem processUserInput_connFailure_witness :
    (processUserInput connFailEnv "hello" "new" initialConnState).1 =
      PUIResult.failure "connection"
        "Unable to connect to AI service. Please check your connection." true
        "hello" "new" :=
  processUserInput_connFailure connFailEnv "hello" "new" initialConnState rfl rfl rfl

/-- C5: each of the three invalidation rules of `getCachedResponse` alone
rejects a stored entry and clears the storage cell entirely; the fallback
fingerprint rule is exactly the triple condition (fingerprint present ∧
length < 500 ∧ no `[INTRODUCTION]` marker) over a non-empty `aiText`; and at
the freshness boundary an entry aged 29 min 59 s (other rules quiescent) is
returned while one aged 30 min 01 s is rejected and cleared. -/
theorem getCachedResponse_invalidation (d : ResponseData) (now : Nat)
    (currentHost : Option String) :
    (now - d.timestamp > 30 * 60 * 1000 →
      getCachedResponse (some d) now currentHost = (none, none)) ∧
    (∀ h, d.host = some h → h ≠ "" → some h ≠ currentHost →
      getCachedResponse (some d) now currentHost = (none, none)) ∧
    (isFallbackData d = true →
      getCachedResponse (some d) now currentHost = (none, none)) ∧
    (isFallbackData d = true ↔
      d.aiResponse ≠ "" ∧ ∃ pat ∈ fallbackPatterns,
        strIncludes d.aiResponse pat = true ∧ d.aiResponse.length < 500 ∧
        strIncludes d.aiResponse "[INTRODUCTION]" = false) ∧
    (hostMismatch d currentHost = false → isFallbackData d = false →
      getCachedResponse (some d) (d.timestamp + 1799000) currentHost =
        (some d, some d)) ∧
    getCachedResponse (some d) (d.timestamp + 1801000) currentHost = (none, none) := by
  refine ⟨?_, ?_, ?_, ?_, ?_, ?_⟩
  · intro h
    simp [getCachedResponse, h]
  · intro h hh hne hneq
    have hm : hostMismatch d currentHost = true := by
      simp [hostMismatch, hh, hne, hneq]
    unfold getCachedResponse
    dsimp only
    split_ifs <;> simp_all
  · intro h
    unfold getCachedResponse
    dsimp only
    split_ifs <;> simp_all
  · by_cases hne : d.aiResponse = ""
    · simp [isFallbackData, hne]
    · simp [isFallbackData, hne, List.any_eq_true, Bool.and_eq_true,
        decide_eq_true_eq, Bool.not_eq_true']
      tauto
  · intro hm hf
    have hage : ¬ d.timestamp + 1799000 - d.timestamp > 30 * 60 * 1000 := by omega
    simp [getCachedResponse, hage, hm, hf]
  · have hage : d.timestamp + 1801000 - d.timestamp > 30 * 60 * 1000 := by omega
    simp [getCachedResponse, hage]

/-- C5 witness: the three rules and the boundary at concrete entries. -/
theorem getCachedResponse_invalidation_witness :
    getCachedResponse (some noHostEntry) (noHostEntry.timestamp + 1801000)
      (some "http://localhost:11434") = (none, none) := by
  have h := getCachedResponse_invalidation noHostEntry
    (noHostEntry.timestamp + 1801000) (some "http://localhost:11434")
  exact h.2.2.2.2.2

/-- C10: an entry whose recorded host is absent (`null`) or empty skips the
host-consistency rule entirely: if it is fresh and not fallback-fingerprinted
it is returned, whatever the currently live host is (even none at all). -/
theorem getCachedResponse_falsyHostSkip (d : ResponseData) (now : Nat)
    (currentHost : Option String)
    (hhost : d.host = none ∨ d.host = some "")
    (hfresh : ¬ now - d.timestamp > 30 * 60 * 1000)
    (hfb : isFallbackData d = false) :
    getCachedResponse (some d) now currentHost = (some d, some d) := by
  have hm : hostMismatch d currentHost = false := by
    rcases hhost with h | h <;> simp [hostMismatch, h]
  simp [getCachedResponse, hfresh, hm, hfb]

/-- C10 witness: a hostless entry returned although the live host differs
from anything the entry could record. -/
theorem getCachedResponse_falsyHostSkip_witness :
    getCachedResponse (some noHostEntry) 1000 (some "http://10.0.0.2:11434") =
      (some noHostEntry, some noHostEntry) :=
  getCachedResponse_falsyHostSkip noHostEntry 1000 (some "http://10.0.0.2:11434")
    (Or.inl rfl) (by decide) (by decide)

/-- C6 (code bug): cancellation does not propagate.  `safeAPICall` ignores
its `signal` argument (its result is the same whatever the abort state), and
the post-await continuation stores unconditionally, so when the aborted
first request's result arrives after the second request's write, the stale
result overwrites the fresh one in the session cache. -/
theorem staleWriteOverwritesCache :
    runEvents none (completionEvents false freshData ++ completionEvents true staleData) =
      some staleData ∧
    staleData ≠ freshData ∧
    (∀ (call : Unit → Except JsError String) (s1 s2 : AbortSignal),
      safeAPICall call s1 = safeAPICall call s2) :=
  ⟨rfl, by decide, fun _ _ _ => rfl⟩

/-- Helper: a product carrying the hemp text signal passes the legal filter
under every spec. -/
theorem passes_of_hempSignal (p : Product) (spec : Option ProductSearchSpec)
    (h : hempSignal p = true) : passesLegalFilter p spec = true := by
  unfold passesLegalFilter
  rcases spec with _ | s
  · rfl
  · dsimp only
    rcases hleg : s.legal with _ | lg <;> simp [hleg, h]

/-- Helper: the ranking output is sorted by descending score. -/
theorem rankProducts_sorted (spec : Option ProductSearchSpec) (ps : List Product) :
    List.Sorted (fun a b => scoreProduct spec b ≤ scoreProduct spec a)
      (rankProducts ps spec) := by
  letI : IsTotal Product fun a b => scoreProduct spec b ≤ scoreProduct spec a :=
    ⟨fun a b => Nat.le_total _ _⟩
  letI : IsTrans Product fun a b => scoreProduct spec b ≤ scoreProduct spec a :=
    ⟨fun _ _ _ h1 h2 => le_trans h2 h1⟩
  exact List.sorted_insertionSort _ ps

/-- Helper: the ranking is stable — a pair already in catalog order whose
first element scores at least the second stays in that order. -/
theorem rankProducts_stable (spec : Option ProductSearchSpec) (ps : List Product)
    (a b : Product) (hab : List.Sublist [a, b] ps)
    (hs : scoreProduct spec b ≤ scoreProduct spec a) :
    List.Sublist [a, b] (rankProducts ps spec) :=
  List.pair_sublist_insertionSort hs hab

/-- Helper: with an indica preference the score splits into the indica match
plus the non-strain components. -/
theorem scoreProduct_indicaPref (spec : Option ProductSearchSpec)
    (h : prefOf spec = "indica") (p : Product) :
    scoreProduct spec p =
      (if strIncludes (nameBlob p) "indica" = true then 3 else 0) + otherScore spec p := by
  unfold scoreProduct strainScore
  rw [h]
  simp

/-- C8: under a hemp-derived-only spec, `passesLegalFilter` accepts exactly
the products whose labeling text carries a compliance signal
(hemp / farm bill / ≤0.3) or that are explicitly THCa-tagged — so an
ambiguous product (no signal at all) is excluded, not included; and every
product the search pipeline returns (ranked inventory or the non-empty mock
fallback for an empty source) passes the legal filter. -/
theorem passesLegalFilter_conservative :
    (∀ (p : Product) (s : ProductSearchSpec) (lg : LegalSpec),
      s.legal = some lg → lg.hempDerivedOnly = true →
      (passesLegalFilter p (some s) = true ↔
        (hempSignal p = true ∨ thcaTagged p = true))) ∧
    (∀ (items : List RawItem) (spec : Option ProductSearchSpec)
      (ctxLevel : Option String),
      (∀ p ∈ getProductRecommendations items spec ctxLevel,
        passesLegalFilter p spec = true) ∧
      (items = [] → getProductRecommendations items spec ctxLevel = mockFallbackProducts) ∧
      mockFallbackProducts ≠ []) := by
  constructor
  · intro p s lg hleg hh
    unfold passesLegalFilter
    dsimp only
    rw [hleg]
    cases hs : hempSignal p <;> simp [hs, hh]
  · intro items spec ctxLevel
    refine ⟨?_, ?_, by decide⟩
    · intro p hp
      cases items with
      | nil =>
        have hp' : p ∈ mockFallbackProducts := hp
        have hall : ∀ q ∈ mockFallbackProducts, hempSignal q = true := by decide
        exact passes_of_hempSignal p spec (hall p hp')
      | cons it its =>
        have hp' : p ∈ (rankProducts
            (normalizeInventory (it :: its) spec ctxLevel) spec).take 4 := hp
        have h1 : p ∈ List.insertionSort
            (fun a b => scoreProduct spec b ≤ scoreProduct spec a)
            (normalizeInventory (it :: its) spec ctxLevel) :=
          List.mem_of_mem_take hp'
        have h2 : p ∈ (List.map (normalizeItem spec ctxLevel) (it :: its)).filter
            (fun q => passesLegalFilter q spec) :=
          (List.mem_insertionSort _).1 h1
        exact (List.mem_filter.1 h2).2
    · intro h
      subst h
      rfl

/-- C7 counterexample: the claim quantifies over every query containing
"sleep", but the heuristic applies the sativa keywords after the indica
ones — the query `"sleep all day"` contains "sleep" yet resolves to
`strainPreference = "sativa"`. -/
theorem sleepQuery_cex :
    strIncludes (lowerStr "sleep all day") "sleep" = true ∧
    (buildProductSearchSpec "sleep all day" "new" none).strainPreference = "sativa" ∧
    (buildProductSearchSpec "sleep all day" "new" none).strainPreference ≠ "indica" := by
  decide

/-- C7 (amended): for a query containing "sleep" and none of the sativa
keywords ("focus" / "day" / "energy"), at any experience level, the
heuristically built spec resolves `strainPreference = "indica"`; the ranking
is then sorted by descending score, stable (catalog order preserved whenever
the earlier element scores at least the later, so in particular on ties),
and places every indica-tagged entry ahead of every sativa-tagged,
non-indica entry whose other score components are equal. -/
theorem sleepQuery_indicaRanking (q lvl : String)
    (hsleep : strIncludes (lowerStr q) "sleep" = true)
    (hfocus : strIncludes (lowerStr q) "focus" = false)
    (hday : strIncludes (lowerStr q) "day" = false)
    (henergy : strIncludes (lowerStr q) "energy" = false)
    (spec : ProductSearchSpec) (hspec : spec = buildProductSearchSpec q lvl none) :
    spec.strainPreference = "indica" ∧
    ∀ ps ranked : List Product, ranked = rankProducts ps (some spec) →
      (∀ i j : Fin ranked.length, i < j →
        scoreProduct (some spec) (ranked.get j) ≤ scoreProduct (some spec) (ranked.get i)) ∧
      (∀ a b : Product, List.Sublist [a, b] ps →
        scoreProduct (some spec) b ≤ scoreProduct (some spec) a →
        List.Sublist [a, b] ranked) ∧
      (∀ i j : Fin ranked.length,
        strIncludes (nameBlob (ranked.get i)) "indica" = true →
        strIncludes (nameBlob (ranked.get j)) "sativa" = true →
        strIncludes (nameBlob (ranked.get j)) "indica" = false →
        otherScore (some spec) (ranked.get i) = otherScore (some spec) (ranked.get j) →
        (i : Nat) < (j : Nat)) := by
  have hpref : spec.strainPreference = "indica" := by
    subst hspec
    unfold buildProductSearchSpec baseSearchSpec
    dsimp only
    simp [hsleep, hfocus, hday, henergy]
    split_ifs <;> rfl
  have hpp : prefOf (some spec) = "indica" := by
    unfold prefOf
    dsimp only
    rw [hpref]
    rfl
  refine ⟨hpref, ?_⟩
  intro ps ranked hr
  subst hr
  refine ⟨?_, ?_, ?_⟩
  · intro i j hij
    exact (rankProducts_sorted (some spec) ps).rel_get_of_lt hij
  · intro a b hab hs
    exact rankProducts_stable (some spec) ps a b hab hs
  · intro i j hi hj hnj hoth
    have hsi := scoreProduct_indicaPref (some spec) hpp
      ((rankProducts ps (some spec)).get i)
    have hsj := scoreProduct_indicaPref (some spec) hpp
      ((rankProducts ps (some spec)).get j)
    rw [if_pos hi] at hsi
    rw [if_neg (by rw [hnj]; decide)] at hsj
    by_contra hcon
    have hle : (j : Nat) ≤ (i : Nat) := Nat.le_of_not_lt hcon
    rcases Nat.eq_or_lt_of_le hle with heq | hlt
    · have hji : j = i := Fin.ext heq
      subst hji
      rw [hi] at hnj
      exact absurd hnj (by decide)
    · have hrel := (rankProducts_sorted (some spec) ps).rel_get_of_lt
        (Fin.lt_def.mpr hlt)
      rw [hsi, hsj] at hrel
      omega

/-- C7 witness: the spec scenario "I have trouble sleeping" resolves the
indica preference. -/
theorem sleepQuery_indicaRanking_witness :
    (buildProductSearchSpec "I have trouble sleeping" "new" none).strainPreference =
      "indica" :=
  (sleepQuery_indicaRanking "I have trouble sleeping" "new" (by decide) (by decide)
    (by decide) (by decide)
    (buildProductSearchSpec "I have trouble sleeping" "new" none) rfl).1

end Sage
